import Mathlib

/-!
# OWSLib `WebFeatureService_` (owslib/feature/__init__.py) — shallow embedding

This file embeds the WFS request-builder base class `WebFeatureService_`:
bounding-box KVP formatting (`getBBOXKVP`), CRS resolution (`getSRS`),
the POST document-builder factory (`create_post_request`), and the GET/POST
`GetFeature` request builders (`getGETGetFeatureRequest`,
`getPOSTGetFeatureRequest`).

Python exceptions (KeyError, IndexError, StopIteration, AttributeError,
NameError, ValueError from `int()`) are embedded as `Option`/`none`:
a `none` result means the call raised.  Python dicts are insertion-ordered
association lists; `request[k] = v` is `dictInsert` (overwrite in place,
else append).  Python truthiness of optional arguments (`if featureid:`)
is the `truthy*` helpers: `None`, `[]`, `""` and `0` are falsy.

Collaborators that are part of OWSLib but outside this module's source
(`Crs` from owslib/crs.py, `PostRequest_2_0_0` from
owslib/feature/postrequest.py, `getOperationByName` from the version
subclasses) are modelled from the spec; each carries a doc comment saying so.
-/

namespace OWSLib

/-- Modelled from the spec: the `Crs` class (owslib/crs.py) is outside this
module's source.  Per the spec a CRS "identifies a spatial reference by code;
has an *encoding* (e.g. "urn" vs plain code) and an *axis order* ("yx" vs
default)". `id` is the server-declared identifier string the object was built
from; `code` is the plain code form; `codeurn` the URN form. -/
structure Crs where
  id : String
  code : String
  codeurn : String
  encoding : String
  axisorder : String
deriving DecidableEq

/-- Modelled from the spec: "CRSs are compared by code/encoding equality, not
identity" (the real equality operator lives in owslib/crs.py). -/
def Crs.pyEq (a b : Crs) : Bool :=
  a.code == b.code && a.encoding == b.encoding

/-- Modelled from the spec: `getcode()` returns "the CRS's plain code". -/
def Crs.getcode (c : Crs) : String := c.code

/-- Modelled from the spec: `getcodeurn()` returns "the CRS's URN-form code". -/
def Crs.getcodeurn (c : Crs) : String := c.codeurn

/-- One entry of `self.contents`: a feature type with its declared, ordered
CRS option list (`crsOptions`). -/
structure FeatureType where
  crsOptions : List Crs
deriving DecidableEq

/-- One entry of an operation's `methods` list: a dict with a `"type"` (HTTP
method name, field `mtype` here) and a `"url"` entry. -/
structure OperationMethod where
  mtype : String
  url : String
deriving DecidableEq

/-- A capability-metadata operation: a name (e.g. "GetFeature") and its
declared method list. -/
structure Operation where
  name : String
  methods : List OperationMethod
deriving DecidableEq

/-- A WFS bounding box `(minx, miny, maxx, maxy[, srs])`.  Coordinates are
kept as the strings the `"%s"` formatting would produce.  `srs5` is the
optional 5th element; the source stores a raw identifier and parses it with
`Crs(bbox[4])` — the parse is outside this module's source, so the embedding
carries the already-parsed CRS (`some` exactly when the tuple has 5 elements). -/
structure BBox where
  minx : String
  miny : String
  maxx : String
  maxy : String
  srs5 : Option Crs
deriving DecidableEq

/-- The state `getBBOXKVP` / `getSRS` / the request builders read:
`self.version`, `self.contents` (feature-type name → `FeatureType`, a dict,
embedded as an association list) and the capability operations used by
`getOperationByName`. -/
structure WebFeatureService where
  version : String
  contents : List (String × FeatureType)
  operations : List Operation
deriving DecidableEq

/-- `self.contents[typename]`: dict lookup; `none` is the KeyError. -/
def lookupContents (self : WebFeatureService) (typename : String) : Option FeatureType :=
  (self.contents.find? (fun kv => kv.1 == typename)).map (fun kv => kv.2)

/-- Modelled from the spec: `getOperationByName` (defined in the version
subclasses, outside this module's source) looks the operation up by name in
capability metadata; `none` is the lookup failure it raises. -/
def WebFeatureService.getOperationByName (self : WebFeatureService) (name : String) :
    Option Operation :=
  self.operations.find? (fun op => op.name == name)

/-- Python truthiness of an optional list argument: `None` and `[]` are falsy. -/
def truthyList {α : Type} (l : Option (List α)) : Bool :=
  match l with
  | none => false
  | some xs => !xs.isEmpty

/-- Python truthiness of an optional string argument: `None` and `""` are falsy. -/
def truthyStr (s : Option String) : Bool :=
  match s with
  | none => false
  | some t => !(t == "")

/-- Python truthiness of an optional int argument: `None` and `0` are falsy. -/
def truthyInt (n : Option Int) : Bool :=
  match n with
  | none => false
  | some m => !(m == 0)

/-- `",".join(l)`. -/
def joinComma (l : List String) : String := String.intercalate "," l

/-- Python `str.lower()` on one character (the method names compared here are
ASCII). -/
def lowerChar (c : Char) : Char :=
  if 65 ≤ c.toNat && c.toNat ≤ 90 then Char.ofNat (c.toNat + 32) else c

/-- Python `str.lower()`. -/
def lowerStr (s : String) : String := String.mk (s.toList.map lowerChar)

/-- Python `s.endswith("?")`: the last character is `?`. -/
def endsWithQmark (s : String) : Bool :=
  match s.toList.getLast? with
  | some c => c == '?'
  | none => false

/-- Python `s[:-1]`: drop the last character. -/
def dropLastChar (s : String) : String := String.mk s.toList.dropLast

/-- The characters before the first `.`: `version.split(".")[0]`. -/
def beforeDot : List Char → List Char
  | [] => []
  | c :: rest => if c == '.' then [] else c :: beforeDot rest

/-- Digits accumulated into a `Nat`; `none` on a non-digit. -/
def parseNatAux : List Char → Nat → Option Nat
  | [], acc => some acc
  | c :: rest, acc =>
    if c.isDigit then parseNatAux rest (acc * 10 + (c.toNat - 48)) else none

/-- Modelled from the stdlib: Python `int()` on the decimal forms that occur
here — an optional sign followed by at least one digit; everything else
raises ValueError (`none`). -/
def parseInt : List Char → Option Int
  | [] => none
  | '-' :: rest =>
    if rest.isEmpty then none else (parseNatAux rest 0).map (fun n => -(n : Int))
  | '+' :: rest =>
    if rest.isEmpty then none else (parseNatAux rest 0).map (fun n => (n : Int))
  | c :: rest => (parseNatAux (c :: rest) 0).map (fun n => (n : Int))

/-- The five comma-joined tokens `"%s,%s,%s,%s,%s"`. -/
def kvp5 (a b c d e : String) : String :=
  a ++ "," ++ b ++ "," ++ c ++ "," ++ d ++ "," ++ e

/-- The srs resolution at the top of `getBBOXKVP`: the 5th bbox element if
present, else `self.contents[typename[0]].crsOptions[0]`.  `none` covers the
TypeError/IndexError on `typename[0]`, the KeyError on `contents`, and the
IndexError on an empty `crsOptions`. -/
def resolveBBoxCrs (self : WebFeatureService) (bbox : BBox)
    (typename : Option (List String)) : Option Crs :=
  match bbox.srs5 with
  | some c => some c
  | none => do
    let tn ← (typename.getD []).head?
    let ft ← lookupContents self tn
    ft.crsOptions.head?

/-- `WebFeatureService_.getBBOXKVP`: format a bounding box for KVP (HTTP GET). -/
def WebFeatureService.getBBOXKVP (self : WebFeatureService) (bbox : BBox)
    (typename : Option (List String)) : Option String := do
  let srs ← resolveBBoxCrs self bbox typename
  if self.version == "1.1.0" || self.version == "2.0.0" then
    if srs.encoding == "urn" then
      if srs.axisorder == "yx" then
        pure (kvp5 bbox.miny bbox.minx bbox.maxy bbox.maxx srs.getcodeurn)
      else
        pure (kvp5 bbox.minx bbox.miny bbox.maxx bbox.maxy srs.getcodeurn)
    else
      pure (kvp5 bbox.minx bbox.miny bbox.maxx bbox.maxy srs.getcode)
  else
    pure (kvp5 bbox.minx bbox.miny bbox.maxx bbox.maxy srs.getcode)

/-- `WebFeatureService_.getSRS`: the outer `Option` is the uncaught KeyError
when `typename` is not in `self.contents`; the inner `Option` is the return
value — the server-declared entry found by `crsOptions.index(srs)` (first
element equal under Python `Crs` equality), or `None` after the logged warning
when the ValueError is caught.  The input is taken already in `Crs` form (the
source wraps a raw string with `Crs(srsname)` first, a parse outside this
module's source). -/
def WebFeatureService.getSRS (self : WebFeatureService) (srs : Crs) (typename : String) :
    Option (Option Crs) := do
  let ft ← lookupContents self typename
  match ft.crsOptions.find? (fun c => Crs.pyEq c srs) with
  | some c => pure (some c)
  | none => pure none

/-- Modelled from the spec: the WFS 2.0.0 POST document builder
(`PostRequest_2_0_0`, owslib/feature/postrequest.py, outside this module's
source).  Per the spec it exposes `create_query(typeNames)` and per-field
setters that "mutate the in-progress document"; the embedding records the
value each setter was invoked with (`none` = setter never invoked), leaving
the final XML serialization to the external collaborator. -/
structure PostRequest200 where
  typenames : Option String := none
  featureid : Option (List String) := none
  bbox : Option BBox := none
  filterXml : Option String := none
  maxfeatures : Option Int := none
  outputFormat : Option String := none
  startindex : Option Int := none
  propertyname : Option (List String) := none
  sortby : Option (List String) := none
deriving DecidableEq

def PostRequest200.create_query (r : PostRequest200) (tns : String) : PostRequest200 :=
  { r with typenames := some tns }

def PostRequest200.set_featureid (r : PostRequest200) (ids : List String) : PostRequest200 :=
  { r with featureid := some ids }

def PostRequest200.set_bbox (r : PostRequest200) (b : BBox) : PostRequest200 :=
  { r with bbox := some b }

def PostRequest200.set_filter (r : PostRequest200) (f : String) : PostRequest200 :=
  { r with filterXml := some f }

def PostRequest200.set_maxfeatures (r : PostRequest200) (n : Int) : PostRequest200 :=
  { r with maxfeatures := some n }

def PostRequest200.set_outputformat (r : PostRequest200) (f : String) : PostRequest200 :=
  { r with outputFormat := some f }

def PostRequest200.set_startindex (r : PostRequest200) (n : Int) : PostRequest200 :=
  { r with startindex := some n }

def PostRequest200.set_propertyname (r : PostRequest200) (ns : List String) : PostRequest200 :=
  { r with propertyname := some ns }

def PostRequest200.set_sortby (r : PostRequest200) (ns : List String) : PostRequest200 :=
  { r with sortby := some ns }

/-- `WebFeatureService_.create_post_request`: returns `PostRequest_2_0_0()` for
versions "2.0"/"2.0.0" and falls off the end (Python `None`, here `none`)
otherwise. -/
def WebFeatureService.create_post_request (self : WebFeatureService) :
    Option PostRequest200 :=
  if self.version == "2.0" || self.version == "2.0.0" then
    some {}
  else
    none

/-- The keyword arguments of `getGETGetFeatureRequest` /
`getPOSTGetFeatureRequest`, with their Python defaults.  `typename` is taken
in list form (the source wraps a bare string into a one-element list, which is
the same value here); `storedQueryParams=None` followed by `or {}` makes the
empty mapping the effective default. -/
structure GetFeatureArgs where
  typename : Option (List String) := none
  filter : Option String := none
  bbox : Option BBox := none
  featureid : Option (List String) := none
  featureversion : Option String := none
  propertyname : Option (List String) := none
  maxfeatures : Option Int := none
  storedQueryID : Option String := none
  storedQueryParams : List (String × String) := []
  outputFormat : Option String := none
  method : String := "Get"
  startindex : Option Int := none
  sortby : Option (List String) := none
deriving DecidableEq

/-- `int(self.version.split(".")[0])`; `none` is the ValueError of `int()`. -/
def majorVersion (version : String) : Option Int :=
  parseInt (beforeDot version.toList)

/-- Python dict assignment `d[k] = v` on an insertion-ordered dict: overwrite
the existing entry in place, else append. -/
def dictInsert : List (String × String) → String → String → List (String × String)
  | [], k, v => [(k, v)]
  | kv :: rest, k, v => if kv.1 == k then (k, v) :: rest else kv :: dictInsert rest k v

/-- `k in d` for the embedded dict. -/
def hasKey (d : List (String × String)) (k : String) : Bool :=
  d.any (fun kv => kv.1 == k)

/-- The endpoint lookup shared by both builders:
`next(m.get("url") for m in ... .methods if m.get("type").lower() == method.lower())`.
`none` is the StopIteration when no method entry matches. -/
def findMethodUrl (methods : List OperationMethod) (method : String) : Option String :=
  (methods.find? (fun m => lowerStr m.mtype == lowerStr method)).map (fun m => m.url)

/-- The `featureid` / `bbox` / `filter` elif-chain of the GET builder, as the
(key, value) pairs it inserts.  A `BBox` value is a 4- or 5-tuple and hence
always truthy; the failure is `getBBOXKVP` raising. -/
def selectorParams (self : WebFeatureService) (a : GetFeatureArgs) :
    Option (List (String × String)) :=
  if truthyList a.featureid then
    some [("featureid", joinComma (a.featureid.getD []))]
  else
    match a.bbox with
    | some bb => (self.getBBOXKVP bb a.typename).map (fun s => [("bbox", s)])
    | none =>
      if truthyStr a.filter then some [("query", a.filter.getD "")] else some []

/-- The `if typename:` block: key `typenames` for major version ≥ 2, else
`typename`; `none` when `int()` fails on the version string. -/
def typenameParams (self : WebFeatureService) (a : GetFeatureArgs) :
    Option (List (String × String)) :=
  if truthyList a.typename then
    (majorVersion self.version).map (fun maj =>
      if 2 ≤ maj then [("typenames", joinComma (a.typename.getD []))]
      else [("typename", joinComma (a.typename.getD []))])
  else some []

/-- The `propertyname` / `sortby` / `featureversion` pass-through blocks. -/
def propertySortFvParams (a : GetFeatureArgs) : List (String × String) :=
  (if truthyList a.propertyname then
    [("propertyname", joinComma (a.propertyname.getD []))] else [])
  ++ (if truthyList a.sortby then [("sortby", joinComma (a.sortby.getD []))] else [])
  ++ (if truthyStr a.featureversion then
    [("featureversion", a.featureversion.getD "")] else [])

/-- The `if maxfeatures:` block: key `count` for major version ≥ 2, else
`maxfeatures`. -/
def maxfeaturesParams (self : WebFeatureService) (a : GetFeatureArgs) :
    Option (List (String × String)) :=
  if truthyInt a.maxfeatures then
    (majorVersion self.version).map (fun maj =>
      if 2 ≤ maj then [("count", toString (a.maxfeatures.getD 0))]
      else [("maxfeatures", toString (a.maxfeatures.getD 0))])
  else some []

/-- The `if startindex:` block. -/
def startindexParams (a : GetFeatureArgs) : List (String × String) :=
  if truthyInt a.startindex then [("startindex", toString (a.startindex.getD 0))] else []

/-- The `if storedQueryID:` block: `storedQuery_id` followed by every entry of
`storedQueryParams` merged into the request dict. -/
def storedQueryPairs (a : GetFeatureArgs) : List (String × String) :=
  if truthyStr a.storedQueryID then
    ("storedQuery_id", a.storedQueryID.getD "") :: a.storedQueryParams
  else []

/-- The `if outputFormat is not None:` block (identity check, not truthiness). -/
def outputFormatParams (a : GetFeatureArgs) : List (String × String) :=
  match a.outputFormat with
  | some f => [("outputFormat", f)]
  | none => []

/-- The initial `request` dict:
`{"service": "WFS", "version": self.version, "request": "GetFeature"}`. -/
def baseQuery (version : String) : List (String × String) :=
  [("service", "WFS"), ("version", version), ("request", "GetFeature")]

/-- The `request` dict of the GET builder after all assignments, in source
order: the base triple, then the selector chain, typename, propertyname /
sortby / featureversion, maxfeatures, startindex, stored query, outputFormat. -/
def getGETquery (self : WebFeatureService) (a : GetFeatureArgs) :
    Option (List (String × String)) := do
  let sel ← selectorParams self a
  let tns ← typenameParams self a
  let mf ← maxfeaturesParams self a
  let pairs := sel ++ tns ++ propertySortFvParams a ++ mf ++ startindexParams a
    ++ storedQueryPairs a ++ outputFormatParams a
  pure (pairs.foldl (fun d kv => dictInsert d kv.1 kv.2) (baseQuery self.version))

/-- Endpoint resolution of the GET builder: matching method URL, normalized to
end with `?`. -/
def getGETbase (self : WebFeatureService) (a : GetFeatureArgs) : Option String := do
  let op ← self.getOperationByName "GetFeature"
  let u ← findMethodUrl op.methods a.method
  pure (if endsWithQmark u then u else u ++ "?")

/-- Hex digit 0-9A-F, as `urllib.parse.quote` uppercases. -/
def hexDigit (n : Nat) : Char :=
  if n < 10 then Char.ofNat (48 + n) else Char.ofNat (55 + n)

/-- UTF-8 bytes of a character, for percent-encoding. -/
def utf8Bytes (c : Char) : List Nat :=
  let n := c.toNat
  if n < 128 then [n]
  else if n < 2048 then [192 + n / 64, 128 + n % 64]
  else if n < 65536 then [224 + n / 4096, 128 + (n / 64) % 64, 128 + n % 64]
  else [240 + n / 262144, 128 + (n / 4096) % 64, 128 + (n / 64) % 64, 128 + n % 64]

/-- `%XX` for one byte. -/
def percentByte (b : Nat) : String :=
  String.mk ['%', hexDigit (b / 16), hexDigit (b % 16)]

/-- Modelled from the stdlib: `urllib.parse.quote_plus` on one character with
the default empty safe set — ASCII alphanumerics and `_.-~` pass through,
space becomes `+`, everything else percent-encodes its UTF-8 bytes. -/
def quotePlusChar (c : Char) : String :=
  if c.isAlphanum || c == '_' || c == '.' || c == '-' || c == '~' then
    String.singleton c
  else if c == ' ' then "+"
  else String.join ((utf8Bytes c).map percentByte)

def quotePlus (s : String) : String :=
  String.join (s.toList.map quotePlusChar)

/-- Modelled from the stdlib: `urllib.parse.urlencode(request, doseq=True)`
over an insertion-ordered dict of string values — each entry becomes
`quote_plus(k)=quote_plus(v)`, joined with `&` (`doseq` only matters for
non-string sequence values, which never occur here). -/
def urlencode (params : List (String × String)) : String :=
  String.intercalate "&" (params.map (fun kv => quotePlus kv.1 ++ "=" ++ quotePlus kv.2))

/-- `WebFeatureService_.getGETGetFeatureRequest`: KVP-encoded GetFeature URL. -/
def WebFeatureService.getGETGetFeatureRequest (self : WebFeatureService)
    (a : GetFeatureArgs) : Option String := do
  let base ← getGETbase self a
  let q ← getGETquery self a
  pure (base ++ urlencode q)

/-- The body half of a POST result: either the raw filter string returned
verbatim by the no-typename special case, or the structured version-specific
POST document (whose XML serialization `to_string` is the external
collaborator's). -/
inductive PostBody where
  | raw : String → PostBody
  | doc : PostRequest200 → PostBody
deriving DecidableEq

/-- `typenames = ",".join(typename)` guarded by `if typename:`; `none` is the
NameError (or the AttributeError on a `None` builder, which the source hits
first) when control reaches `create_query` with no truthy `typename`. -/
def typenamesJoin (typename : Option (List String)) : Option String :=
  if truthyList typename then some (joinComma (typename.getD [])) else none

/-- The `featureid` / `bbox` / `filter` elif-chain of setter calls in the POST
builder (same three-way precedence as the GET path). -/
def applySelectors (r : PostRequest200) (a : GetFeatureArgs) : PostRequest200 :=
  if truthyList a.featureid then r.set_featureid (a.featureid.getD [])
  else
    match a.bbox with
    | some bb => r.set_bbox bb
    | none =>
      if truthyStr a.filter then r.set_filter (a.filter.getD "") else r

/-- The independent truthiness-guarded setter calls at the end of the POST
builder: maxfeatures, outputFormat, startindex, propertyname, sortby. -/
def applyExtras (r : PostRequest200) (a : GetFeatureArgs) : PostRequest200 :=
  let r3 := if truthyInt a.maxfeatures then r.set_maxfeatures (a.maxfeatures.getD 0) else r
  let r4 := if truthyStr a.outputFormat then
    r3.set_outputformat (a.outputFormat.getD "") else r3
  let r5 := if truthyInt a.startindex then r4.set_startindex (a.startindex.getD 0) else r4
  let r6 := if truthyList a.propertyname then
    r5.set_propertyname (a.propertyname.getD []) else r5
  if truthyList a.sortby then r6.set_sortby (a.sortby.getD []) else r6

/-- `WebFeatureService_.getPOSTGetFeatureRequest`: (endpoint, body) pair.
`featureversion` / `storedQueryID` / `storedQueryParams` are only logged as
unsupported warnings and never reach the output. -/
def WebFeatureService.getPOSTGetFeatureRequest (self : WebFeatureService)
    (a : GetFeatureArgs) : Option (String × PostBody) := do
  let op ← self.getOperationByName "GetFeature"
  let u ← findMethodUrl op.methods a.method
  let base := if endsWithQmark u then dropLastChar u else u
  if !truthyList a.typename && truthyStr a.filter then
    pure (base, PostBody.raw (a.filter.getD ""))
  else do
    let tns ← typenamesJoin a.typename
    let req0 ← self.create_post_request
    pure (base, PostBody.doc (applyExtras (applySelectors (req0.create_query tns) a) a))

/-! ## Concrete instances used by witnesses and counterexamples -/

/-- A CRS with urn encoding and yx axis order. -/
def crsUrnYx : Crs :=
  { id := "urn:ogc:def:crs:EPSG::4326", code := "EPSG:4326",
    codeurn := "urn:ogc:def:crs:EPSG::4326", encoding := "urn", axisorder := "yx" }

/-- A 5-element bounding box carrying `crsUrnYx`. -/
def bboxW : BBox :=
  { minx := "1", miny := "2", maxx := "3", maxy := "4", srs5 := some crsUrnYx }

/-- A service at the given version with one feature type `"t"` (options
`[crsUrnYx]`) and a GET endpoint for GetFeature. -/
def svcAt (v : String) : WebFeatureService :=
  { version := v,
    contents := [("t", { crsOptions := [crsUrnYx] })],
    operations := [{ name := "GetFeature",
                     methods := [{ mtype := "Get", url := "http://example.org/wfs" }] }] }

/-- Counterexample arguments for the selector-exclusivity claim: featureid and
bbox both supplied, and the stored-query parameter mapping itself carries a
"bbox" key. -/
def argsSelCex : GetFeatureArgs :=
  { featureid := some ["f1"], bbox := some bboxW,
    storedQueryID := some "sq", storedQueryParams := [("bbox", "7")] }

/-- Counterexample arguments for the parameter-vocabulary claim: typename
given while the stored-query parameter mapping itself carries a "typename"
key. -/
def argsVocabCex : GetFeatureArgs :=
  { typename := some ["r"], storedQueryID := some "sq",
    storedQueryParams := [("typename", "x")] }

/-- Witness arguments with all three selectors supplied at once. -/
def argsSelW : GetFeatureArgs :=
  { typename := some ["roads"], featureid := some ["f1"], bbox := some bboxW,
    filter := some "<Filter/>" }

/-! ## Helper lemmas -/

theorem hasKey_dictInsert (d : List (String × String)) (k v k2 : String) :
    hasKey (dictInsert d k v) k2 = (k == k2 || hasKey d k2) := by
  induction d with
  | nil => simp [dictInsert, hasKey]
  | cons kv rest ih =>
    by_cases h : kv.1 = k
    · simp [dictInsert, hasKey, h]
    · have hb : (kv.1 == k) = false := by simp [h]
      simp only [dictInsert, hb, Bool.false_eq_true, if_false, hasKey, List.any_cons]
      simp only [hasKey] at ih
      rw [ih]
      cases hkk : (k == k2) <;> cases hkv : (kv.1 == k2) <;> simp

theorem hasKey_foldl (pairs : List (String × String)) (d : List (String × String))
    (k : String) :
    hasKey (pairs.foldl (fun d2 kv => dictInsert d2 kv.1 kv.2) d) k
      = (hasKey d k || pairs.any (fun kv => kv.1 == k)) := by
  induction pairs generalizing d with
  | nil => simp
  | cons kv rest ih =>
    simp only [List.foldl_cons, List.any_cons]
    rw [ih, hasKey_dictInsert]
    cases h1 : hasKey d k <;> cases h2 : (kv.1 == k) <;> simp

/-! ## C1 -/

/-- C1: for a bounding box with an explicit 5th-element CRS, under protocol
version "1.1.0" or "2.0.0", `getBBOXKVP` returns the five comma-joined tokens
(miny, minx, maxy, maxx, URN code) when the encoding is "urn" with axis order
"yx"; (minx, miny, maxx, maxy, URN code) when "urn" with another axis order;
and (minx, miny, maxx, maxy, plain code) when the encoding is not "urn". -/
theorem getBBOXKVP_explicit_crs_axis_order (self : WebFeatureService) (bbox : BBox)
    (crs : Crs) (tns : Option (List String)) (h5 : bbox.srs5 = some crs)
    (hv : self.version = "1.1.0" ∨ self.version = "2.0.0") :
    self.getBBOXKVP bbox tns = some (
      if crs.encoding = "urn" then
        if crs.axisorder = "yx" then
          kvp5 bbox.miny bbox.minx bbox.maxy bbox.maxx crs.getcodeurn
        else
          kvp5 bbox.minx bbox.miny bbox.maxx bbox.maxy crs.getcodeurn
      else
        kvp5 bbox.minx bbox.miny bbox.maxx bbox.maxy crs.getcode) := by
  have hres : resolveBBoxCrs self bbox tns = some crs := by
    unfold resolveBBoxCrs
    rw [h5]
  rcases hv with hv | hv <;>
    by_cases he : crs.encoding = "urn" <;>
    by_cases ha : crs.axisorder = "yx" <;>
    simp [WebFeatureService.getBBOXKVP, hres, hv, he, ha]

/-- Witness for C1 at `bboxW` (urn encoding, yx axis order) under "1.1.0". -/
theorem getBBOXKVP_explicit_crs_axis_order_witness :
    (svcAt "1.1.0").getBBOXKVP bboxW none
      = some "2,1,4,3,urn:ogc:def:crs:EPSG::4326" := by
  have h := getBBOXKVP_explicit_crs_axis_order (svcAt "1.1.0") bboxW crsUrnYx none
    rfl (Or.inl rfl)
  rw [h]
  rfl

/-! ## C9 -/

/-- C9: under protocol version "1.0.0", `getBBOXKVP` emits
(minx, miny, maxx, maxy) followed by the resolved CRS's plain code, for every
CRS encoding and axis order — no axis-order correction. -/
theorem getBBOXKVP_v100_no_axis_correction (self : WebFeatureService) (bbox : BBox)
    (tns : Option (List String)) (hv : self.version = "1.0.0") :
    self.getBBOXKVP bbox tns = (resolveBBoxCrs self bbox tns).map
      (fun crs => kvp5 bbox.minx bbox.miny bbox.maxx bbox.maxy crs.getcode) := by
  cases hres : resolveBBoxCrs self bbox tns <;>
    simp [WebFeatureService.getBBOXKVP, hres, hv]

/-- Witness for C9: the same yx-ordered urn box gets no axis swap under
"1.0.0" and carries the plain code. -/
theorem getBBOXKVP_v100_no_axis_correction_witness :
    (svcAt "1.0.0").getBBOXKVP bboxW none = some "1,2,3,4,EPSG:4326" := by
  have h := getBBOXKVP_v100_no_axis_correction (svcAt "1.0.0") bboxW none rfl
  rw [h]
  rfl

/-- `List.find?_some` with the predicate explicit, to guide unification. -/
theorem find?_property {α : Type} (p : α → Bool) {l : List α} {a : α}
    (h : l.find? p = some a) : p a = true :=
  List.find?_some h

/-! ## C5 -/

/-- C5: for a typename present in capability metadata, `getSRS` never raises
(outer `some`); when some declared CRS option equals the requested CRS it
returns the server-declared entry of the option list itself (the first equal
one), and when none does it returns the `None` marker. -/
theorem getSRS_declared_entry_or_none (self : WebFeatureService) (srs : Crs)
    (tn : String) (ft : FeatureType) (h : lookupContents self tn = some ft) :
    ∃ r, self.getSRS srs tn = some r ∧
      ((∃ c ∈ ft.crsOptions, Crs.pyEq c srs = true) →
        ∃ c, r = some c ∧ c ∈ ft.crsOptions ∧ Crs.pyEq c srs = true ∧
          ft.crsOptions.find? (fun c2 => Crs.pyEq c2 srs) = some c) ∧
      ((∀ c ∈ ft.crsOptions, Crs.pyEq c srs = false) → r = none) := by
  unfold WebFeatureService.getSRS
  rw [h]
  cases hf : ft.crsOptions.find? (fun c => Crs.pyEq c srs) with
  | some c =>
    have hp : Crs.pyEq c srs = true := find?_property (fun c2 => Crs.pyEq c2 srs) hf
    refine ⟨some c, by simp [hf], fun _ => ⟨c, rfl, List.mem_of_find?_eq_some hf,
      hp, rfl⟩, fun hall => ?_⟩
    have := hall c (List.mem_of_find?_eq_some hf)
    rw [hp] at this
    exact absurd this (by simp)
  | none =>
    refine ⟨none, by simp [hf], fun hex => ?_, fun _ => rfl⟩
    obtain ⟨c, hc, hpc⟩ := hex
    have := List.find?_eq_none.mp hf c hc
    rw [hpc] at this
    exact absurd rfl this

/-- Witness for C5: in `svcAt "1.1.0"`, a request equal (by code/encoding) to
the declared option resolves, and the theorem applies. -/
theorem getSRS_declared_entry_or_none_witness :
    ∃ r, (svcAt "1.1.0").getSRS { crsUrnYx with id := "caller-form" } "t" = some r ∧
      ((∃ c ∈ (FeatureType.mk [crsUrnYx]).crsOptions,
          Crs.pyEq c { crsUrnYx with id := "caller-form" } = true) →
        ∃ c, r = some c ∧ c ∈ (FeatureType.mk [crsUrnYx]).crsOptions ∧
          Crs.pyEq c { crsUrnYx with id := "caller-form" } = true ∧
          (FeatureType.mk [crsUrnYx]).crsOptions.find?
            (fun c2 => Crs.pyEq c2 { crsUrnYx with id := "caller-form" }) = some c) ∧
      ((∀ c ∈ (FeatureType.mk [crsUrnYx]).crsOptions,
          Crs.pyEq c { crsUrnYx with id := "caller-form" } = false) → r = none) :=
  getSRS_declared_entry_or_none (svcAt "1.1.0") { crsUrnYx with id := "caller-form" }
    "t" (FeatureType.mk [crsUrnYx]) (by decide)

/-! ## C10 -/

/-- C10: the GET builder includes maxfeatures and startindex only when truthy,
each independently: with maxfeatures 0 (whatever startindex is — absent, zero
or nonzero, since all other fields of `a` are arbitrary) the maxfeatures block
contributes no `count`/`maxfeatures` pair and the built request is identical
to the one with maxfeatures absent; symmetrically, with startindex 0 the
startindex block contributes no `startindex` pair and the built request is
identical to the one with startindex absent. -/
theorem getGET_zero_maxfeatures_startindex_like_absent (self : WebFeatureService)
    (a : GetFeatureArgs) :
    maxfeaturesParams self { a with maxfeatures := some 0 } = some [] ∧
    self.getGETGetFeatureRequest { a with maxfeatures := some 0 }
      = self.getGETGetFeatureRequest { a with maxfeatures := none } ∧
    startindexParams { a with startindex := some 0 } = [] ∧
    self.getGETGetFeatureRequest { a with startindex := some 0 }
      = self.getGETGetFeatureRequest { a with startindex := none } := by
  refine ⟨rfl, rfl, rfl, rfl⟩

/-! ### Key characterization of the GET query components -/

theorem baseQuery_hasKey_other (v k : String) (h1 : ("service" == k) = false)
    (h2 : ("version" == k) = false) (h3 : ("request" == k) = false) :
    hasKey (baseQuery v) k = false := by
  simp [baseQuery, hasKey, h1, h2, h3]

theorem selectorParams_any_featureid (self : WebFeatureService) (a : GetFeatureArgs)
    (s : List (String × String)) (h : selectorParams self a = some s) :
    s.any (fun kv => kv.1 == "featureid") = truthyList a.featureid := by
  unfold selectorParams at h
  by_cases hf : truthyList a.featureid = true
  · rw [if_pos hf] at h
    obtain rfl := (Option.some.inj h).symm
    simp [hf]
  · have hf0 : truthyList a.featureid = false := by simpa using hf
    rw [hf0] at h
    simp only [Bool.false_eq_true, if_false] at h
    rw [hf0]
    cases hb : a.bbox with
    | some bb =>
      rw [hb] at h
      rcases Option.map_eq_some'.mp h with ⟨v, _, rfl⟩
      simp
    | none =>
      rw [hb] at h
      by_cases hfl : truthyStr a.filter = true
      · rw [if_pos hfl] at h
        obtain rfl := (Option.some.inj h).symm
        simp
      · rw [if_neg hfl] at h
        obtain rfl := (Option.some.inj h).symm
        simp

theorem selectorParams_any_bbox (self : WebFeatureService) (a : GetFeatureArgs)
    (s : List (String × String)) (h : selectorParams self a = some s) :
    s.any (fun kv => kv.1 == "bbox") = (!truthyList a.featureid && a.bbox.isSome) := by
  unfold selectorParams at h
  by_cases hf : truthyList a.featureid = true
  · rw [if_pos hf] at h
    obtain rfl := (Option.some.inj h).symm
    simp [hf]
  · have hf0 : truthyList a.featureid = false := by simpa using hf
    rw [hf0] at h
    simp only [Bool.false_eq_true, if_false] at h
    rw [hf0]
    cases hb : a.bbox with
    | some bb =>
      rw [hb] at h
      rcases Option.map_eq_some'.mp h with ⟨v, _, rfl⟩
      simp
    | none =>
      rw [hb] at h
      by_cases hfl : truthyStr a.filter = true
      · rw [if_pos hfl] at h
        obtain rfl := (Option.some.inj h).symm
        simp
      · rw [if_neg hfl] at h
        obtain rfl := (Option.some.inj h).symm
        simp

theorem selectorParams_any_query (self : WebFeatureService) (a : GetFeatureArgs)
    (s : List (String × String)) (h : selectorParams self a = some s) :
    s.any (fun kv => kv.1 == "query")
      = (!truthyList a.featureid && !a.bbox.isSome && truthyStr a.filter) := by
  unfold selectorParams at h
  by_cases hf : truthyList a.featureid = true
  · rw [if_pos hf] at h
    obtain rfl := (Option.some.inj h).symm
    simp [hf]
  · have hf0 : truthyList a.featureid = false := by simpa using hf
    rw [hf0] at h
    simp only [Bool.false_eq_true, if_false] at h
    rw [hf0]
    cases hb : a.bbox with
    | some bb =>
      rw [hb] at h
      rcases Option.map_eq_some'.mp h with ⟨v, _, rfl⟩
      simp
    | none =>
      rw [hb] at h
      by_cases hfl : truthyStr a.filter = true
      · rw [if_pos hfl] at h
        obtain rfl := (Option.some.inj h).symm
        simp [hfl]
      · have hfl0 : truthyStr a.filter = false := by simpa using hfl
        rw [hfl0] at h
        simp only [Bool.false_eq_true, if_false] at h
        obtain rfl := (Option.some.inj h).symm
        simp [hfl0]

theorem selectorParams_any_other (self : WebFeatureService) (a : GetFeatureArgs)
    (s : List (String × String)) (k : String) (h : selectorParams self a = some s)
    (h1 : ("featureid" == k) = false) (h2 : ("bbox" == k) = false)
    (h3 : ("query" == k) = false) :
    s.any (fun kv => kv.1 == k) = false := by
  unfold selectorParams at h
  by_cases hf : truthyList a.featureid = true
  · rw [if_pos hf] at h
    obtain rfl := (Option.some.inj h).symm
    simp [h1]
  · rw [if_neg hf] at h
    cases hb : a.bbox with
    | some bb =>
      rw [hb] at h
      rcases Option.map_eq_some'.mp h with ⟨v, _, rfl⟩
      simp [h2]
    | none =>
      rw [hb] at h
      by_cases hfl : truthyStr a.filter = true
      · rw [if_pos hfl] at h
        obtain rfl := (Option.some.inj h).symm
        simp [h3]
      · rw [if_neg hfl] at h
        obtain rfl := (Option.some.inj h).symm
        simp

theorem typenameParams_any_vocab (self : WebFeatureService) (a : GetFeatureArgs)
    (t : List (String × String)) (maj : Int) (h : typenameParams self a = some t)
    (hmaj : majorVersion self.version = some maj) :
    t.any (fun kv => kv.1 == "typenames") = (truthyList a.typename && decide (2 ≤ maj)) ∧
    t.any (fun kv => kv.1 == "typename") = (truthyList a.typename && !decide (2 ≤ maj)) := by
  unfold typenameParams at h
  by_cases ht : truthyList a.typename = true
  · rw [if_pos ht, hmaj] at h
    rcases Option.map_eq_some'.mp h with ⟨m, hm, rfl⟩
    obtain rfl := Option.some.inj hm
    by_cases h2 : 2 ≤ maj
    · simp [ht, h2]
    · simp [ht, h2]
  · have ht0 : truthyList a.typename = false := by simpa using ht
    rw [ht0] at h
    simp only [Bool.false_eq_true, if_false] at h
    obtain rfl := (Option.some.inj h).symm
    simp [ht0]

theorem typenameParams_any_other (self : WebFeatureService) (a : GetFeatureArgs)
    (t : List (String × String)) (k : String) (h : typenameParams self a = some t)
    (h1 : ("typenames" == k) = false) (h2 : ("typename" == k) = false) :
    t.any (fun kv => kv.1 == k) = false := by
  unfold typenameParams at h
  by_cases ht : truthyList a.typename = true
  · rw [if_pos ht] at h
    rcases Option.map_eq_some'.mp h with ⟨m, _, rfl⟩
    by_cases hm2 : 2 ≤ m <;> simp [hm2, h1, h2]
  · rw [if_neg ht] at h
    obtain rfl := (Option.some.inj h).symm
    simp

theorem maxfeaturesParams_any_vocab (self : WebFeatureService) (a : GetFeatureArgs)
    (m : List (String × String)) (maj : Int) (h : maxfeaturesParams self a = some m)
    (hmaj : majorVersion self.version = some maj) :
    m.any (fun kv => kv.1 == "count") = (truthyInt a.maxfeatures && decide (2 ≤ maj)) ∧
    m.any (fun kv => kv.1 == "maxfeatures")
      = (truthyInt a.maxfeatures && !decide (2 ≤ maj)) := by
  unfold maxfeaturesParams at h
  by_cases hmx : truthyInt a.maxfeatures = true
  · rw [if_pos hmx, hmaj] at h
    rcases Option.map_eq_some'.mp h with ⟨mj, hmj, rfl⟩
    obtain rfl := Option.some.inj hmj
    by_cases h2 : 2 ≤ maj
    · simp [hmx, h2]
    · simp [hmx, h2]
  · have hmx0 : truthyInt a.maxfeatures = false := by simpa using hmx
    rw [hmx0] at h
    simp only [Bool.false_eq_true, if_false] at h
    obtain rfl := (Option.some.inj h).symm
    simp [hmx0]

theorem maxfeaturesParams_any_other (self : WebFeatureService) (a : GetFeatureArgs)
    (m : List (String × String)) (k : String) (h : maxfeaturesParams self a = some m)
    (h1 : ("count" == k) = false) (h2 : ("maxfeatures" == k) = false) :
    m.any (fun kv => kv.1 == k) = false := by
  unfold maxfeaturesParams at h
  by_cases hmx : truthyInt a.maxfeatures = true
  · rw [if_pos hmx] at h
    rcases Option.map_eq_some'.mp h with ⟨mj, _, rfl⟩
    by_cases hm2 : 2 ≤ mj <;> simp [hm2, h1, h2]
  · rw [if_neg hmx] at h
    obtain rfl := (Option.some.inj h).symm
    simp

theorem propertySortFvParams_any_other (a : GetFeatureArgs) (k : String)
    (h1 : ("propertyname" == k) = false) (h2 : ("sortby" == k) = false)
    (h3 : ("featureversion" == k) = false) :
    (propertySortFvParams a).any (fun kv => kv.1 == k) = false := by
  unfold propertySortFvParams
  by_cases hp : truthyList a.propertyname = true <;>
    by_cases hs : truthyList a.sortby = true <;>
    by_cases hf : truthyStr a.featureversion = true <;>
    simp [hp, hs, hf, h1, h2, h3]

theorem startindexParams_any_other (a : GetFeatureArgs) (k : String)
    (h1 : ("startindex" == k) = false) :
    (startindexParams a).any (fun kv => kv.1 == k) = false := by
  unfold startindexParams
  by_cases hs : truthyInt a.startindex = true <;> simp [hs, h1]

theorem storedQueryPairs_any_other (a : GetFeatureArgs) (k : String)
    (h1 : ("storedQuery_id" == k) = false)
    (hclean : ∀ kv ∈ a.storedQueryParams, (kv.1 == k) = false) :
    (storedQueryPairs a).any (fun kv => kv.1 == k) = false := by
  unfold storedQueryPairs
  by_cases hs : truthyStr a.storedQueryID = true
  · rw [if_pos hs]
    simp only [List.any_cons, h1, Bool.false_or]
    rw [List.any_eq_false]
    intro kv hkv
    simp [hclean kv hkv]
  · rw [if_neg hs]
    rfl

theorem outputFormatParams_any_other (a : GetFeatureArgs) (k : String)
    (h1 : ("outputFormat" == k) = false) :
    (outputFormatParams a).any (fun kv => kv.1 == k) = false := by
  unfold outputFormatParams
  cases a.outputFormat <;> simp [h1]

/-- Destructuring a successful GET query build into its components. -/
theorem getGETquery_eq_some (self : WebFeatureService) (a : GetFeatureArgs)
    (q : List (String × String)) (hq : getGETquery self a = some q) :
    ∃ sel tns mf, selectorParams self a = some sel ∧ typenameParams self a = some tns ∧
      maxfeaturesParams self a = some mf ∧
      q = (sel ++ tns ++ propertySortFvParams a ++ mf ++ startindexParams a
        ++ storedQueryPairs a ++ outputFormatParams a).foldl
          (fun d kv => dictInsert d kv.1 kv.2) (baseQuery self.version) := by
  unfold getGETquery at hq
  simp only [Option.bind_eq_bind] at hq
  rcases Option.bind_eq_some.mp hq with ⟨sel, hsel, hq2⟩
  rcases Option.bind_eq_some.mp hq2 with ⟨tns, htns, hq3⟩
  rcases Option.bind_eq_some.mp hq3 with ⟨mf, hmf, hq4⟩
  exact ⟨sel, tns, mf, hsel, htns, hmf, (Option.some.inj hq4).symm⟩

/-! ### The POST setter chain and the selector fields -/

theorem applyExtras_featureid (r : PostRequest200) (a : GetFeatureArgs) :
    (applyExtras r a).featureid = r.featureid := by
  unfold applyExtras PostRequest200.set_maxfeatures PostRequest200.set_outputformat
    PostRequest200.set_startindex PostRequest200.set_propertyname PostRequest200.set_sortby
  split_ifs <;> rfl

theorem applyExtras_bbox (r : PostRequest200) (a : GetFeatureArgs) :
    (applyExtras r a).bbox = r.bbox := by
  unfold applyExtras PostRequest200.set_maxfeatures PostRequest200.set_outputformat
    PostRequest200.set_startindex PostRequest200.set_propertyname PostRequest200.set_sortby
  split_ifs <;> rfl

theorem applyExtras_filterXml (r : PostRequest200) (a : GetFeatureArgs) :
    (applyExtras r a).filterXml = r.filterXml := by
  unfold applyExtras PostRequest200.set_maxfeatures PostRequest200.set_outputformat
    PostRequest200.set_startindex PostRequest200.set_propertyname PostRequest200.set_sortby
  split_ifs <;> rfl

theorem applySelectors_fields (r : PostRequest200) (a : GetFeatureArgs)
    (h0f : r.featureid = none) (h0b : r.bbox = none) (h0x : r.filterXml = none) :
    (applySelectors r a).featureid.isSome = truthyList a.featureid ∧
    (applySelectors r a).bbox.isSome = (!truthyList a.featureid && a.bbox.isSome) ∧
    (applySelectors r a).filterXml.isSome
      = (!truthyList a.featureid && !a.bbox.isSome && truthyStr a.filter) := by
  unfold applySelectors PostRequest200.set_featureid PostRequest200.set_bbox
    PostRequest200.set_filter
  by_cases hf : truthyList a.featureid = true
  · simp [hf, h0b, h0x]
  · have hf0 : truthyList a.featureid = false := by simpa using hf
    cases hb : a.bbox with
    | some bb => simp [hf0, hb, h0f, h0x]
    | none =>
      by_cases hfl : truthyStr a.filter = true
      · simp [hf0, hb, hfl, h0f, h0b]
      · have hfl0 : truthyStr a.filter = false := by simpa using hfl
        simp [hf0, hb, hfl0, h0f, h0b, h0x]

/-- Destructuring a successful POST build that produced a structured document:
the document is the setter chain applied to the fresh 2.0.0 builder. -/
theorem getPOST_doc_eq (self : WebFeatureService) (a : GetFeatureArgs) (u : String)
    (d : PostRequest200)
    (hpost : self.getPOSTGetFeatureRequest a = some (u, PostBody.doc d)) :
    ∃ tns, typenamesJoin a.typename = some tns ∧
      self.create_post_request = some {} ∧
      d = applyExtras (applySelectors (PostRequest200.create_query {} tns) a) a := by
  unfold WebFeatureService.getPOSTGetFeatureRequest at hpost
  simp only [Option.bind_eq_bind] at hpost
  rcases Option.bind_eq_some.mp hpost with ⟨op, hop, h2⟩
  rcases Option.bind_eq_some.mp h2 with ⟨url, hurl, h3⟩
  by_cases hc : (!truthyList a.typename && truthyStr a.filter) = true
  · rw [if_pos hc] at h3
    simp at h3
  · rw [if_neg hc] at h3
    rcases Option.bind_eq_some.mp h3 with ⟨tns, htns, h4⟩
    rcases Option.bind_eq_some.mp h4 with ⟨req0, hreq0, h5⟩
    have hreq : req0 = {} := by
      unfold WebFeatureService.create_post_request at hreq0
      split at hreq0
      · exact (Option.some.inj hreq0).symm
      · exact absurd hreq0 (by simp)
    subst hreq
    have hd := congrArg Prod.snd (Option.some.inj h5)
    simp only at hd
    injection hd with hinj
    exact ⟨tns, htns, hreq0, hinj.symm⟩

/-! ## C3 -/

/-- C3: at protocol version "2.0.0", with capability metadata resolving the
GetFeature GET endpoint to "http://example.org/wfs", the GET builder called
with typename=["roads"] and every other optional argument absent returns
exactly this URL: the three fixed keys then `typenames`, in that order, and
nothing else. -/
theorem getGET_typenames_only_exact_url (self : WebFeatureService) (op : Operation)
    (h1 : self.getOperationByName "GetFeature" = some op)
    (h2 : findMethodUrl op.methods "Get" = some "http://example.org/wfs")
    (hv : self.version = "2.0.0") :
    self.getGETGetFeatureRequest { typename := some ["roads"] } =
      some "http://example.org/wfs?service=WFS&version=2.0.0&request=GetFeature&typenames=roads" := by
  have hb : getGETbase self { typename := some ["roads"] } = some "http://example.org/wfs?" := by
    unfold getGETbase
    rw [h1]
    simp only [Option.bind_eq_bind, Option.some_bind]
    rw [h2]
    rfl
  have hq : getGETquery self { typename := some ["roads"] } =
      some [("service", "WFS"), ("version", "2.0.0"), ("request", "GetFeature"),
        ("typenames", "roads")] := by
    unfold getGETquery selectorParams typenameParams maxfeaturesParams
    rw [hv]
    rfl
  unfold WebFeatureService.getGETGetFeatureRequest
  rw [hb]
  simp only [Option.bind_eq_bind, Option.some_bind]
  rw [hq]
  rfl

/-- Witness for C3 at the concrete service `svcAt "2.0.0"`. -/
theorem getGET_typenames_only_exact_url_witness :
    (svcAt "2.0.0").getGETGetFeatureRequest { typename := some ["roads"] } =
      some "http://example.org/wfs?service=WFS&version=2.0.0&request=GetFeature&typenames=roads" :=
  getGET_typenames_only_exact_url (svcAt "2.0.0")
    { name := "GetFeature",
      methods := [{ mtype := "Get", url := "http://example.org/wfs" }] }
    rfl rfl rfl

/-! ## C7 -/

/-- C7: the POST builder with no truthy feature-type list but a truthy filter
returns the endpoint (trailing "?" stripped) paired with the filter string
verbatim as body — a raw body, not a constructed POST document. -/
theorem getPOST_raw_filter_special_case (self : WebFeatureService) (a : GetFeatureArgs)
    (op : Operation) (u : String)
    (h1 : self.getOperationByName "GetFeature" = some op)
    (h2 : findMethodUrl op.methods a.method = some u)
    (hnt : truthyList a.typename = false) (hf : truthyStr a.filter = true) :
    self.getPOSTGetFeatureRequest a =
      some ((if endsWithQmark u then dropLastChar u else u),
        PostBody.raw (a.filter.getD "")) := by
  unfold WebFeatureService.getPOSTGetFeatureRequest
  rw [h1]
  simp only [Option.bind_eq_bind, Option.some_bind]
  rw [h2]
  simp [hnt, hf]

/-- Witness for C7: filter "<Filter/>" and no typename against a "1.1.0"
service (no POST document builder exists there, and none is needed). -/
theorem getPOST_raw_filter_special_case_witness :
    (svcAt "1.1.0").getPOSTGetFeatureRequest { filter := some "<Filter/>", method := "Get" } =
      some ("http://example.org/wfs", PostBody.raw "<Filter/>") := by
  have h := getPOST_raw_filter_special_case (svcAt "1.1.0")
    { filter := some "<Filter/>", method := "Get" }
    { name := "GetFeature",
      methods := [{ mtype := "Get", url := "http://example.org/wfs" }] }
    "http://example.org/wfs" rfl rfl rfl rfl
  rw [h]
  rfl

/-! ## C8 -/

/-- C8: for every protocol version other than "2.0"/"2.0.0" the POST document
builder factory yields no builder (`None`), and a POST request that reaches
document construction (a truthy feature-type list is given) fails instead of
producing output. -/
theorem create_post_request_unavailable (self : WebFeatureService) (a : GetFeatureArgs)
    (hv2 : self.version ≠ "2.0") (hv200 : self.version ≠ "2.0.0")
    (ht : truthyList a.typename = true) :
    self.create_post_request = none ∧ self.getPOSTGetFeatureRequest a = none := by
  have hcpr : self.create_post_request = none := by
    unfold WebFeatureService.create_post_request
    simp [hv2, hv200]
  refine ⟨hcpr, ?_⟩
  unfold WebFeatureService.getPOSTGetFeatureRequest
  cases h1 : self.getOperationByName "GetFeature" with
  | none => simp
  | some op =>
    simp only [Option.bind_eq_bind, Option.some_bind]
    cases h2 : findMethodUrl op.methods a.method with
    | none => simp
    | some u =>
      simp [ht, hcpr, typenamesJoin]

/-- Witness for C8 at version "1.1.0" with typename ["roads"]. -/
theorem create_post_request_unavailable_witness :
    (svcAt "1.1.0").create_post_request = none ∧
      (svcAt "1.1.0").getPOSTGetFeatureRequest
        { typename := some ["roads"], method := "Get" } = none :=
  create_post_request_unavailable (svcAt "1.1.0")
    { typename := some ["roads"], method := "Get" } (by decide) (by decide) rfl

/-! ## C6 -/

/-- C6: both builders resolve the endpoint as the first GetFeature method
entry whose HTTP method matches case-insensitively — any successful GET
result extends that entry's URL (normalized with a trailing "?"), any
successful POST result's URL is that entry's URL with a trailing "?"
stripped — and when no entry matches, both builders propagate the failure
and return nothing. -/
theorem endpoint_first_match_or_propagate (self : WebFeatureService) (a : GetFeatureArgs)
    (op : Operation) (h1 : self.getOperationByName "GetFeature" = some op) :
    (op.methods.find? (fun m => lowerStr m.mtype == lowerStr a.method) = none →
      self.getGETGetFeatureRequest a = none ∧ self.getPOSTGetFeatureRequest a = none) ∧
    (∀ m, op.methods.find? (fun m => lowerStr m.mtype == lowerStr a.method) = some m →
      (∀ s, self.getGETGetFeatureRequest a = some s →
        ∃ d, s = (if endsWithQmark m.url then m.url else m.url ++ "?") ++ d) ∧
      (∀ u b, self.getPOSTGetFeatureRequest a = some (u, b) →
        u = if endsWithQmark m.url then dropLastChar m.url else m.url)) := by
  constructor
  · intro hn
    have hfm : findMethodUrl op.methods a.method = none := by
      unfold findMethodUrl
      rw [hn]
      rfl
    constructor
    · unfold WebFeatureService.getGETGetFeatureRequest getGETbase
      rw [h1]
      simp [hfm]
    · unfold WebFeatureService.getPOSTGetFeatureRequest
      rw [h1]
      simp [hfm]
  · intro m hm
    have hfm : findMethodUrl op.methods a.method = some m.url := by
      unfold findMethodUrl
      rw [hm]
      rfl
    have hbase : getGETbase self a
        = some (if endsWithQmark m.url then m.url else m.url ++ "?") := by
      unfold getGETbase
      rw [h1]
      simp only [Option.bind_eq_bind, Option.some_bind]
      rw [hfm]
      rfl
    constructor
    · intro s hs
      unfold WebFeatureService.getGETGetFeatureRequest at hs
      rw [hbase] at hs
      simp only [Option.bind_eq_bind, Option.some_bind] at hs
      rcases Option.bind_eq_some.mp hs with ⟨q, _, hsq⟩
      exact ⟨urlencode q, (Option.some.inj hsq).symm⟩
    · intro u b hu
      unfold WebFeatureService.getPOSTGetFeatureRequest at hu
      rw [h1] at hu
      simp only [Option.bind_eq_bind, Option.some_bind] at hu
      rw [hfm] at hu
      simp only [Option.some_bind] at hu
      by_cases hc : (!truthyList a.typename && truthyStr a.filter) = true
      · rw [if_pos hc] at hu
        have := Option.some.inj hu
        exact (congrArg Prod.fst this).symm
      · rw [if_neg hc] at hu
        rcases Option.bind_eq_some.mp hu with ⟨tns, _, hu2⟩
        rcases Option.bind_eq_some.mp hu2 with ⟨req0, _, hu3⟩
        have := Option.some.inj hu3
        exact (congrArg Prod.fst this).symm

/-- Witness for C6: a service whose GetFeature operation only declares a POST
endpoint; a GET-method request finds no match and both builders return
nothing. -/
theorem endpoint_first_match_or_propagate_witness :
    ({ version := "2.0.0", contents := [],
       operations := [{ name := "GetFeature",
                        methods := [{ mtype := "Post", url := "http://example.org/post" }] }] }
      : WebFeatureService).getGETGetFeatureRequest { typename := some ["roads"] } = none ∧
    ({ version := "2.0.0", contents := [],
       operations := [{ name := "GetFeature",
                        methods := [{ mtype := "Post", url := "http://example.org/post" }] }] }
      : WebFeatureService).getPOSTGetFeatureRequest { typename := some ["roads"] } = none :=
  (endpoint_first_match_or_propagate
    { version := "2.0.0", contents := [],
      operations := [{ name := "GetFeature",
                       methods := [{ mtype := "Post", url := "http://example.org/post" }] }] }
    { typename := some ["roads"] }
    { name := "GetFeature",
      methods := [{ mtype := "Post", url := "http://example.org/post" }] }
    rfl).1 (by decide)

/-! ## C2 -/

/-- C2 (counterexample): with featureid and bbox both supplied but the
stored-query parameter mapping carrying a "bbox" key, the built GET request
contains a featureid parameter AND a bbox parameter, refuting the claim that
only one selector is ever encoded. -/
theorem selector_precedence_counterexample :
    truthyList argsSelCex.featureid = true ∧ argsSelCex.bbox.isSome = true ∧
    (svcAt "1.1.0").getGETGetFeatureRequest argsSelCex =
      some "http://example.org/wfs?service=WFS&version=1.1.0&request=GetFeature&featureid=f1&storedQuery_id=sq&bbox=7" ∧
    ∃ q, getGETquery (svcAt "1.1.0") argsSelCex = some q ∧
      hasKey q "featureid" = true ∧ hasKey q "bbox" = true := by
  exact ⟨rfl, rfl, by decide, ⟨_, rfl, rfl, rfl⟩⟩

/-- C2 (amended): provided the stored-query parameter mapping does not itself
carry a selector key ("featureid"/"bbox"/"query"), at most one selector is
encoded, first match in the priority order featureid, bbox, filter: the GET
query dict has a featureid key exactly when featureid is truthy, a bbox key
exactly when featureid is not truthy and a bbox is given, and a query
(filter) key exactly when neither holds and the filter is truthy; the POST
document's featureid/bbox/filter setters are invoked under exactly the same
conditions. -/
theorem selector_precedence_exclusive (self : WebFeatureService) (a : GetFeatureArgs)
    (hclean : ∀ kv ∈ a.storedQueryParams, (kv.1 == "featureid") = false ∧
      (kv.1 == "bbox") = false ∧ (kv.1 == "query") = false) :
    (∀ q, getGETquery self a = some q →
      hasKey q "featureid" = truthyList a.featureid ∧
      hasKey q "bbox" = (!truthyList a.featureid && a.bbox.isSome) ∧
      hasKey q "query"
        = (!truthyList a.featureid && !a.bbox.isSome && truthyStr a.filter)) ∧
    (∀ u d, self.getPOSTGetFeatureRequest a = some (u, PostBody.doc d) →
      d.featureid.isSome = truthyList a.featureid ∧
      d.bbox.isSome = (!truthyList a.featureid && a.bbox.isSome) ∧
      d.filterXml.isSome
        = (!truthyList a.featureid && !a.bbox.isSome && truthyStr a.filter)) := by
  constructor
  · intro q hq
    obtain ⟨sel, tns, mf, hsel, htns, hmf, rfl⟩ := getGETquery_eq_some self a q hq
    refine ⟨?_, ?_, ?_⟩
    · rw [hasKey_foldl,
        baseQuery_hasKey_other self.version "featureid" (by decide) (by decide) (by decide)]
      simp only [List.any_append]
      rw [selectorParams_any_featureid self a sel hsel,
        typenameParams_any_other self a tns "featureid" htns (by decide) (by decide),
        propertySortFvParams_any_other a "featureid" (by decide) (by decide) (by decide),
        maxfeaturesParams_any_other self a mf "featureid" hmf (by decide) (by decide),
        startindexParams_any_other a "featureid" (by decide),
        storedQueryPairs_any_other a "featureid" (by decide)
          (fun kv hkv => (hclean kv hkv).1),
        outputFormatParams_any_other a "featureid" (by decide)]
      simp
    · rw [hasKey_foldl,
        baseQuery_hasKey_other self.version "bbox" (by decide) (by decide) (by decide)]
      simp only [List.any_append]
      rw [selectorParams_any_bbox self a sel hsel,
        typenameParams_any_other self a tns "bbox" htns (by decide) (by decide),
        propertySortFvParams_any_other a "bbox" (by decide) (by decide) (by decide),
        maxfeaturesParams_any_other self a mf "bbox" hmf (by decide) (by decide),
        startindexParams_any_other a "bbox" (by decide),
        storedQueryPairs_any_other a "bbox" (by decide)
          (fun kv hkv => (hclean kv hkv).2.1),
        outputFormatParams_any_other a "bbox" (by decide)]
      simp
    · rw [hasKey_foldl,
        baseQuery_hasKey_other self.version "query" (by decide) (by decide) (by decide)]
      simp only [List.any_append]
      rw [selectorParams_any_query self a sel hsel,
        typenameParams_any_other self a tns "query" htns (by decide) (by decide),
        propertySortFvParams_any_other a "query" (by decide) (by decide) (by decide),
        maxfeaturesParams_any_other self a mf "query" hmf (by decide) (by decide),
        startindexParams_any_other a "query" (by decide),
        storedQueryPairs_any_other a "query" (by decide)
          (fun kv hkv => (hclean kv hkv).2.2),
        outputFormatParams_any_other a "query" (by decide)]
      simp
  · intro u d hpost
    obtain ⟨tns, htns, hcpr, rfl⟩ := getPOST_doc_eq self a u d hpost
    rw [applyExtras_featureid, applyExtras_bbox, applyExtras_filterXml]
    exact applySelectors_fields (PostRequest200.create_query {} tns) a rfl rfl rfl

/-- Witness for C2 (amended): all three selectors supplied at once against
`svcAt "2.0.0"`; only featureid is encoded. -/
theorem selector_precedence_exclusive_witness :
    hasKey [("service", "WFS"), ("version", "2.0.0"), ("request", "GetFeature"),
        ("featureid", "f1"), ("typenames", "roads")] "featureid"
      = truthyList argsSelW.featureid ∧
    hasKey [("service", "WFS"), ("version", "2.0.0"), ("request", "GetFeature"),
        ("featureid", "f1"), ("typenames", "roads")] "bbox"
      = (!truthyList argsSelW.featureid && argsSelW.bbox.isSome) ∧
    hasKey [("service", "WFS"), ("version", "2.0.0"), ("request", "GetFeature"),
        ("featureid", "f1"), ("typenames", "roads")] "query"
      = (!truthyList argsSelW.featureid && !argsSelW.bbox.isSome
        && truthyStr argsSelW.filter) :=
  (selector_precedence_exclusive (svcAt "2.0.0") argsSelW
    (by intro kv hkv; simp [argsSelW] at hkv)).1 _ rfl

/-! ## C4 -/

/-- C4 (counterexample): at version "2.0.0" with a typename given, a
stored-query parameter mapping carrying a "typename" key makes the built GET
request contain BOTH `typenames` and `typename`, refuting the claim that the
two names never both appear. -/
theorem parameter_vocabulary_counterexample :
    (svcAt "2.0.0").getGETGetFeatureRequest argsVocabCex =
      some "http://example.org/wfs?service=WFS&version=2.0.0&request=GetFeature&typenames=r&storedQuery_id=sq&typename=x" ∧
    ∃ q, getGETquery (svcAt "2.0.0") argsVocabCex = some q ∧
      hasKey q "typenames" = true ∧ hasKey q "typename" = true := by
  exact ⟨by decide, ⟨_, rfl, rfl, rfl⟩⟩

/-- C4 (amended): provided the stored-query parameter mapping does not itself
carry one of the keys "typename"/"typenames"/"count"/"maxfeatures", the GET
parameter vocabulary is selected by the protocol's major version: the
feature-type list appears under `typenames` and maxfeatures under `count`
exactly when the major version is ≥ 2 (and the argument is truthy), under
`typename`/`maxfeatures` exactly when it is < 2, and for each parameter the
two names never both appear. -/
theorem parameter_vocabulary_by_major_version (self : WebFeatureService)
    (a : GetFeatureArgs) (q : List (String × String)) (maj : Int)
    (hclean : ∀ kv ∈ a.storedQueryParams, (kv.1 == "typename") = false ∧
      (kv.1 == "typenames") = false ∧ (kv.1 == "count") = false ∧
      (kv.1 == "maxfeatures") = false)
    (hq : getGETquery self a = some q)
    (hmaj : majorVersion self.version = some maj) :
    hasKey q "typenames" = (truthyList a.typename && decide (2 ≤ maj)) ∧
    hasKey q "typename" = (truthyList a.typename && !decide (2 ≤ maj)) ∧
    hasKey q "count" = (truthyInt a.maxfeatures && decide (2 ≤ maj)) ∧
    hasKey q "maxfeatures" = (truthyInt a.maxfeatures && !decide (2 ≤ maj)) ∧
    (hasKey q "typenames" && hasKey q "typename") = false ∧
    (hasKey q "count" && hasKey q "maxfeatures") = false := by
  obtain ⟨sel, tns, mf, hsel, htns, hmf, rfl⟩ := getGETquery_eq_some self a q hq
  obtain ⟨htn1, htn2⟩ := typenameParams_any_vocab self a tns maj htns hmaj
  obtain ⟨hmx1, hmx2⟩ := maxfeaturesParams_any_vocab self a mf maj hmf hmaj
  have k1 : hasKey ((sel ++ tns ++ propertySortFvParams a ++ mf ++ startindexParams a
      ++ storedQueryPairs a ++ outputFormatParams a).foldl
        (fun d kv => dictInsert d kv.1 kv.2) (baseQuery self.version)) "typenames"
      = (truthyList a.typename && decide (2 ≤ maj)) := by
    rw [hasKey_foldl,
      baseQuery_hasKey_other self.version "typenames" (by decide) (by decide) (by decide)]
    simp only [List.any_append]
    rw [selectorParams_any_other self a sel "typenames" hsel
        (by decide) (by decide) (by decide),
      htn1,
      propertySortFvParams_any_other a "typenames" (by decide) (by decide) (by decide),
      maxfeaturesParams_any_other self a mf "typenames" hmf (by decide) (by decide),
      startindexParams_any_other a "typenames" (by decide),
      storedQueryPairs_any_other a "typenames" (by decide)
        (fun kv hkv => (hclean kv hkv).2.1),
      outputFormatParams_any_other a "typenames" (by decide)]
    simp
  have k2 : hasKey ((sel ++ tns ++ propertySortFvParams a ++ mf ++ startindexParams a
      ++ storedQueryPairs a ++ outputFormatParams a).foldl
        (fun d kv => dictInsert d kv.1 kv.2) (baseQuery self.version)) "typename"
      = (truthyList a.typename && !decide (2 ≤ maj)) := by
    rw [hasKey_foldl,
      baseQuery_hasKey_other self.version "typename" (by decide) (by decide) (by decide)]
    simp only [List.any_append]
    rw [selectorParams_any_other self a sel "typename" hsel
        (by decide) (by decide) (by decide),
      htn2,
      propertySortFvParams_any_other a "typename" (by decide) (by decide) (by decide),
      maxfeaturesParams_any_other self a mf "typename" hmf (by decide) (by decide),
      startindexParams_any_other a "typename" (by decide),
      storedQueryPairs_any_other a "typename" (by decide)
        (fun kv hkv => (hclean kv hkv).1),
      outputFormatParams_any_other a "typename" (by decide)]
    simp
  have k3 : hasKey ((sel ++ tns ++ propertySortFvParams a ++ mf ++ startindexParams a
      ++ storedQueryPairs a ++ outputFormatParams a).foldl
        (fun d kv => dictInsert d kv.1 kv.2) (baseQuery self.version)) "count"
      = (truthyInt a.maxfeatures && decide (2 ≤ maj)) := by
    rw [hasKey_foldl,
      baseQuery_hasKey_other self.version "count" (by decide) (by decide) (by decide)]
    simp only [List.any_append]
    rw [selectorParams_any_other self a sel "count" hsel
        (by decide) (by decide) (by decide),
      typenameParams_any_other self a tns "count" htns (by decide) (by decide),
      propertySortFvParams_any_other a "count" (by decide) (by decide) (by decide),
      hmx1,
      startindexParams_any_other a "count" (by decide),
      storedQueryPairs_any_other a "count" (by decide)
        (fun kv hkv => (hclean kv hkv).2.2.1),
      outputFormatParams_any_other a "count" (by decide)]
    simp
  have k4 : hasKey ((sel ++ tns ++ propertySortFvParams a ++ mf ++ startindexParams a
      ++ storedQueryPairs a ++ outputFormatParams a).foldl
        (fun d kv => dictInsert d kv.1 kv.2) (baseQuery self.version)) "maxfeatures"
      = (truthyInt a.maxfeatures && !decide (2 ≤ maj)) := by
    rw [hasKey_foldl,
      baseQuery_hasKey_other self.version "maxfeatures" (by decide) (by decide) (by decide)]
    simp only [List.any_append]
    rw [selectorParams_any_other self a sel "maxfeatures" hsel
        (by decide) (by decide) (by decide),
      typenameParams_any_other self a tns "maxfeatures" htns (by decide) (by decide),
      propertySortFvParams_any_other a "maxfeatures" (by decide) (by decide) (by decide),
      hmx2,
      startindexParams_any_other a "maxfeatures" (by decide),
      storedQueryPairs_any_other a "maxfeatures" (by decide)
        (fun kv hkv => (hclean kv hkv).2.2.2),
      outputFormatParams_any_other a "maxfeatures" (by decide)]
    simp
  refine ⟨k1, k2, k3, k4, ?_, ?_⟩
  · rw [k1, k2]
    cases truthyList a.typename <;> cases hd : decide (2 ≤ maj) <;> simp [hd]
  · rw [k3, k4]
    cases truthyInt a.maxfeatures <;> cases hd : decide (2 ≤ maj) <;> simp [hd]

/-- Witness for C4 (amended) at `svcAt "2.0.0"` with typename ["roads"] and
maxfeatures 50: `typenames` and `count` appear, `typename` and `maxfeatures`
do not. -/
theorem parameter_vocabulary_by_major_version_witness :
    hasKey [("service", "WFS"), ("version", "2.0.0"), ("request", "GetFeature"),
        ("typenames", "roads"), ("count", "50")] "typenames"
      = (truthyList (some ["roads"]) && decide (2 ≤ (2 : Int))) ∧
    hasKey [("service", "WFS"), ("version", "2.0.0"), ("request", "GetFeature"),
        ("typenames", "roads"), ("count", "50")] "typename"
      = (truthyList (some ["roads"]) && !decide (2 ≤ (2 : Int))) ∧
    hasKey [("service", "WFS"), ("version", "2.0.0"), ("request", "GetFeature"),
        ("typenames", "roads"), ("count", "50")] "count"
      = (truthyInt (some 50) && decide (2 ≤ (2 : Int))) ∧
    hasKey [("service", "WFS"), ("version", "2.0.0"), ("request", "GetFeature"),
        ("typenames", "roads"), ("count", "50")] "maxfeatures"
      = (truthyInt (some 50) && !decide (2 ≤ (2 : Int))) ∧
    (hasKey [("service", "WFS"), ("version", "2.0.0"), ("request", "GetFeature"),
        ("typenames", "roads"), ("count", "50")] "typenames" &&
      hasKey [("service", "WFS"), ("version", "2.0.0"), ("request", "GetFeature"),
        ("typenames", "roads"), ("count", "50")] "typename") = false ∧
    (hasKey [("service", "WFS"), ("version", "2.0.0"), ("request", "GetFeature"),
        ("typenames", "roads"), ("count", "50")] "count" &&
      hasKey [("service", "WFS"), ("version", "2.0.0"), ("request", "GetFeature"),
        ("typenames", "roads"), ("count", "50")] "maxfeatures") = false :=
  parameter_vocabulary_by_major_version (svcAt "2.0.0")
    { typename := some ["roads"], maxfeatures := some 50 } _ 2
    (by intro kv hkv; simp at hkv) rfl rfl

end OWSLib
